import Mathlib

/-!
# KurdForest: email-verification state machine and watchlist engine

A shallow embedding of `src/routes/auth.js`, `src/routes/api.js` and
`src/models/movie.js`.

* A request handler is a function from the world before the request, the
  request body and the answers of the outside world during the request
  (clock, random bytes, metadata provider, answer of the store to a write) to
  the world after the request and the reply.
* The world holds the process-wide temp registration store, the `User` and
  `Movie` collections, the session of the requesting client and the list of
  requests sent to the metadata provider so far.
* Body fields are JavaScript values (`JsVal`): a handler that calls a string
  method on a non-string raises a `TypeError`, which is a reply of its own
  (`Reply.uncaught`) when no `try` block encloses the call.
* Library behaviour the sources do not fix is a parameter of the handlers:
  `String.prototype.toUpperCase` (`upper`), `bcrypt.compare` (`compare`), what
  the store matches for a filter value that is not a string (`query`) or is an
  object (`operators`), and the Mongoose option `strictQuery`, whose default
  differs between major versions.  The theorems hold for every choice.
* A filter with a plain value never fails a read.  A write (`save()`,
  `findByIdAndUpdate`) can be rejected by the store; the handlers route a
  rejection to their `catch` block.  The answer of the store is an input of
  the request.
* `movieSchema` declares no `tmdbId` path.
-/

namespace KurdForest

/-! ## JavaScript values and replies -/

/-- A JavaScript value as it arrives in a parsed body or leaves in a reply.
An object or an array is kept as its JSON text. -/
inductive JsVal where
  | undefined
  | null
  | bool (b : Bool)
  | num (q : ℚ)
  | str (s : String)
  | object (json : String)
  deriving DecidableEq

/-- What `res.render`, `res.redirect` and `res.json` send. -/
inductive Body where
  | render (view : String) (locals : List (String × JsVal))
  | redirect (url : String)
  | json (fields : List (String × JsVal))
  deriving DecidableEq

/-- An HTTP response: status code and body. -/
structure Response where
  status : Nat
  body : Body
  deriving DecidableEq

/-- The outcome of a handler: a response was sent, or an exception left the
handler before any response was sent. -/
inductive Reply where
  | sent (r : Response)
  | uncaught (error : String)
  deriving DecidableEq

/-- ASCII upper-casing.  It agrees with `String.prototype.toUpperCase` on
ASCII strings and stands in for it in the concrete scenarios. -/
def asciiUpper (s : String) : String :=
  String.mk (s.data.map Char.toUpper)

/-! ## Data model -/

/-- The object `/register` hands to `storeTempUser`. -/
structure TempData where
  username : String
  email : String
  password : String
  verificationCode : String
  deriving DecidableEq

/-- A staged registration as `/verify` reads it back: the staged data plus the
`timestamp` field the store stamps on it. -/
structure TempUser where
  username : String
  email : String
  password : String
  verificationCode : String
  timestamp : Int
  deriving DecidableEq

/-- The process-wide temp registration store, keyed by token. -/
abbrev TempStore := List (String × TempUser)

/-- Modelled from the spec: `utils/tempUsers.js` is not among the sources.
`store(token, registration)` unconditionally inserts or overwrites and stamps
the creation time. -/
def storeTempUser (m : TempStore) (token : String) (d : TempData) (now : Int) : TempStore :=
  (token, ⟨d.username, d.email, d.password, d.verificationCode, now⟩) ::
    m.filter (fun e => e.1 ≠ token)

/-- Modelled from the spec: `get(token)` returns the staged registration or
nothing.  A token that is not a string addresses nothing. -/
def getTempUser (m : TempStore) : JsVal → Option TempUser
  | .str t => (m.find? (fun e => e.1 = t)).map (fun e => e.2)
  | _ => none

/-- Modelled from the spec: `remove(token)` drops the entry of the token. -/
def removeTempUser (m : TempStore) : JsVal → TempStore
  | .str t => m.filter (fun e => e.1 ≠ t)
  | _ => m

/-- A `User` document (the fields the handlers read and write). -/
structure User where
  _id : Nat
  username : String
  email : String
  password : String
  isVerified : Bool
  profilePicture : JsVal
  watchlist : List Nat
  deriving DecidableEq

/-- The record kept in `req.session.user`. -/
structure SessionUser where
  id : Nat
  username : String
  profilePicture : JsVal
  deriving DecidableEq

/-- One cast entry as `/watchlist/add` maps it. -/
structure CastMember where
  name : JsVal
  character : JsVal
  profile_path : JsVal
  deriving DecidableEq

/-- A genre entry of the provider. -/
structure Genre where
  id : JsVal
  name : JsVal
  deriving DecidableEq

/-- A document of the `movies` collection.  A field is `none` when the
document does not carry it.  `title` holds the value handed to the `String`
path. -/
structure MovieDoc where
  _id : Nat
  tmdbId : Option JsVal
  media_type : Option JsVal
  title : Option JsVal
  description : Option JsVal
  overview : Option JsVal
  poster_path : Option JsVal
  release_date : Option JsVal
  vote_average : Option JsVal
  genres : Option (List Genre)
  cast : Option (List CastMember)
  deriving DecidableEq

/-- The world a request runs in.  `tmdbRequests` lists, for every call of
`fetchTMDB` by `/watchlist/add`, the `media_type` and the `tmdbId` its endpoint
was built from. -/
structure World where
  tempUsers : TempStore
  users : List User
  movies : List MovieDoc
  session : Option SessionUser
  tmdbRequests : List (JsVal × JsVal)
  deriving DecidableEq

/-- How the document store answers the `save()` of a document. -/
inductive SaveResult where
  | accepted
  | duplicateKey
  | failed
  deriving DecidableEq

/-! ## `src/routes/auth.js` -/

/-- The reply of `res.render(view, locals)` with the given status. -/
def render (status : Nat) (view : String) (locals : List (String × JsVal)) : Reply :=
  .sent ⟨status, .render view locals⟩

/-- The reply of `res.redirect(url)`. -/
def redirect (url : String) : Reply :=
  .sent ⟨302, .redirect url⟩

/-- One hex digit of `Buffer.toString('hex')`. -/
def hexDigit (n : Nat) : Char :=
  if n < 10 then Char.ofNat (48 + n) else Char.ofNat (87 + n)

/-- Model of `Buffer.toString('hex')`: two lower-case hex digits per byte. -/
def toHex (bytes : List Nat) : String :=
  String.mk (bytes.flatMap (fun b => [hexDigit (b / 16 % 16), hexDigit (b % 16)]))

/-- What the outside world answers during one `POST /register`. -/
structure RegisterEnv where
  /-- result of `bcrypt.hash(password, 10)` -/
  hashed : String
  /-- the bytes of `crypto.randomBytes(3)` -/
  codeBytes : List Nat
  /-- the bytes of `crypto.randomBytes(20)` -/
  tokenBytes : List Nat
  /-- the value of `Date.now()` when the registration is staged -/
  now : Int
  /-- whether `transporter.sendMail` reports no error -/
  mailOk : Bool

/-- Handler `router.post('/register', redirectIfLoggedIn, ...)`; `upper` is
`String.prototype.toUpperCase`. -/
def register (upper : String → String) (w : World) (username email : String)
    (password : JsVal) (env : RegisterEnv) : World × Reply :=
  match w.session with
  | some _ => (w, redirect "/")
  | none =>
    match w.users.find? (fun u => u.email = email ∨ u.username = username) with
    | some _ =>
      (w, render 409 "register"
        [("error", .str "A user with that email or username already exists.")])
    | none =>
      match password with
      | .str _ =>
        let verificationCode := upper (toHex env.codeBytes)
        let verificationToken := toHex env.tokenBytes
        let w1 := { w with tempUsers := (storeTempUser w.tempUsers verificationToken
                      ⟨username, email, env.hashed, verificationCode⟩ env.now) }
        if env.mailOk then
          (w1, redirect ("/verify?token=" ++ verificationToken))
        else
          (w1, render 500 "register"
            [("error", .str "An error occurred while sending the verification email.")])
      | _ =>
        (w, render 500 "register" [("error", .str "An error occurred during registration.")])

/-- What the outside world answers during one `POST /verify`. -/
structure VerifyEnv where
  /-- the value of `Date.now()` -/
  now : Int
  /-- the `_id` given to the document built by `new User(...)` -/
  newId : Nat
  /-- the schema default of `profilePicture` (`models/user.js` is not among
  the sources) -/
  profilePicture : JsVal
  /-- how the store answers `user.save()` -/
  save : SaveResult

/-- The render sent for an unknown or expired token. -/
def expiredReply : Reply :=
  render 200 "verify"
    [("error", .str "Verification code has expired. Please register again."), ("token", .null)]

/-- The render sent for a wrong code: the token stays in the form. -/
def invalidCodeReply (token : JsVal) : Reply :=
  render 200 "verify" [("error", .str "Invalid verification code."), ("token", token)]

/-- The render sent from the `catch` block of `/verify`. -/
def verificationErrorReply (token : JsVal) : Reply :=
  render 500 "verify" [("error", .str "An error occurred during verification."), ("token", token)]

/-- The document `new User({ username, email, password, isVerified: true })`. -/
def newUser (t : TempUser) (env : VerifyEnv) : User :=
  ⟨env.newId, t.username, t.email, t.password, true, env.profilePicture, []⟩

/-- The session record of a user. -/
def sessionOf (u : User) : SessionUser :=
  ⟨u._id, u.username, u.profilePicture⟩

/-- Handler `router.post('/verify', ...)`; `upper` is
`String.prototype.toUpperCase`. -/
def verify (upper : String → String) (w : World) (token code : JsVal) (env : VerifyEnv) :
    World × Reply :=
  match getTempUser w.tempUsers token with
  | none => (w, expiredReply)
  | some tempUser =>
    if env.now - tempUser.timestamp > 60000 then
      ({ w with tempUsers := removeTempUser w.tempUsers token }, expiredReply)
    else
      match code with
      | .str c =>
        if tempUser.verificationCode ≠ upper c then
          (w, invalidCodeReply token)
        else
          let user := newUser tempUser env
          match env.save with
          | .accepted =>
            ({ w with users := w.users ++ [user],
                      tempUsers := removeTempUser w.tempUsers token,
                      session := some (sessionOf user) },
              redirect "/")
          | _ => (w, verificationErrorReply token)
      | _ => (w, .uncaught "TypeError")

/-- The 401 render of `/login` for an account that is not verified. -/
def unverifiedReply : Reply :=
  render 401 "login" [("error", .str "Please verify your email before logging in.")]

/-- The 401 render of `/login` for an unknown email or a wrong password. -/
def invalidCredentialsReply : Reply :=
  render 401 "login" [("error", .str "Invalid email or password.")]

/-- The 500 render from the `catch` block of `/login`. -/
def loginErrorReply : Reply :=
  render 500 "login" [("error", .str "An error occurred during login.")]

/-- Lookup `User.findOne({ email })`.  A string is matched against the stored
email.  For any other value (`models/user.js` is not among the sources) the
parameter `query` says what Mongoose makes of the filter: `none` when it
rejects the filter and `findOne` throws, else the test it applies to the
stored email (an object is read as query operators).  The outer `none` of the
result is the exception. -/
def findUserByEmail (query : JsVal → Option (String → Bool)) (users : List User) :
    JsVal → Option (Option User)
  | .str e => some (users.find? (fun u => u.email = e))
  | v => (query v).map (fun p => users.find? (fun u => p u.email))

/-- Handler `router.post('/login', redirectIfLoggedIn, ...)`; `compare` is
`bcrypt.compare`, which rejects a password that is not a string. -/
def login (compare : String → String → Bool) (query : JsVal → Option (String → Bool))
    (w : World) (email password : JsVal) : World × Reply :=
  match w.session with
  | some _ => (w, redirect "/")
  | none =>
    match findUserByEmail query w.users email with
    | none => (w, loginErrorReply)
    | some none => (w, invalidCredentialsReply)
    | some (some user) =>
      match password with
      | .str p =>
        if compare p user.password then
          if !user.isVerified then
            (w, unverifiedReply)
          else
            ({ w with session := some (sessionOf user) }, redirect "/")
        else
          (w, invalidCredentialsReply)
      | _ => (w, loginErrorReply)

/-- The world with the `isVerified` flag of every user set to `b`. -/
def setVerified (b : Bool) (w : World) : World :=
  { w with users := w.users.map (fun u => { u with isVerified := b }) }

/-! ## `src/models/movie.js` -/

/-- The paths `movieSchema` declares. -/
def movieSchemaPaths : List String :=
  ["title", "description", "releaseYear", "genre", "posterUrl"]

/-- Strict mode, the default of a Mongoose schema (`movieSchema` sets no
option): a value given to the constructor under a path the schema does not
declare is not kept in the document. -/
def keep {α : Type} (path : String) (v : α) : Option α :=
  if path ∈ movieSchemaPaths then some v else none

/-- The check behind `title: { type: String, required: true }`: a non-empty
string passes, a number or a boolean is cast to a string and passes, an object
or an array cannot be cast. -/
def titleValid : Option JsVal → Bool
  | some (.str s) => decide (s ≠ "")
  | some (.num _) => true
  | some (.bool _) => true
  | _ => false

/-- Lookup `Movie.findOne({ tmdbId })`.  `tmdbId` is not a path of
`movieSchema`.  With `strictQuery` on, Mongoose strips the undeclared path from
the filter, and the empty filter matches the first document of the collection.
With `strictQuery` off the filter reaches the store as written: a number, a
string or a boolean matches the first document that carries this `tmdbId`;
`null` or `undefined` (sent as `null`) matches the first document whose
`tmdbId` is null or missing; an object is read as query operators, and the
parameter `operators` says what the store makes of it: `none` when the store
rejects the filter and `findOne` throws, else the test applied to the `tmdbId`
field.  The outer `none` of the result is the exception. -/
def findOne (operators : String → Option (Option JsVal → Bool)) (strictQuery : Bool)
    (movies : List MovieDoc) (tmdbId : JsVal) : Option (Option MovieDoc) :=
  if strictQuery ∧ "tmdbId" ∉ movieSchemaPaths then some movies.head?
  else
    match tmdbId with
    | .undefined =>
      some (movies.find? (fun m =>
        m.tmdbId = none ∨ m.tmdbId = some .null ∨ m.tmdbId = some .undefined))
    | .null =>
      some (movies.find? (fun m =>
        m.tmdbId = none ∨ m.tmdbId = some .null ∨ m.tmdbId = some .undefined))
    | .object j => (operators j).map (fun p => movies.find? (fun m => p m.tmdbId))
    | v => some (movies.find? (fun m => m.tmdbId = some v))

/-! ## `src/routes/api.js` -/

/-- The JSON the metadata provider returns for one title. -/
structure Details where
  id : JsVal
  title : JsVal
  name : JsVal
  overview : JsVal
  poster_path : JsVal
  release_date : JsVal
  first_air_date : JsVal
  vote_average : JsVal
  genres : List Genre
  /-- the list `details.credits.cast`; `none` when `details.credits` is missing -/
  credits : Option (List CastMember)
  deriving DecidableEq

/-- JavaScript truthiness. -/
def truthy : JsVal → Bool
  | .undefined => false
  | .null => false
  | .bool b => b
  | .num q => decide (q ≠ 0)
  | .str s => decide (s ≠ "")
  | .object _ => true

/-- The JavaScript operator `a || b`. -/
def jsOr (a b : JsVal) : JsVal :=
  if truthy a then a else b

/-- The reply of `res.status(status).json(fields)`. -/
def json (status : Nat) (fields : List (String × JsVal)) : Reply :=
  .sent ⟨status, .json fields⟩

/-- The `catch` block shared by the watchlist handlers. -/
def serverError : Reply :=
  json 500 [("error", .str "Server error.")]

/-- What the outside world answers during one `POST /api/watchlist/add`. -/
structure AddEnv where
  /-- the answer of the provider to `fetchTMDB`; `none` when the response is
  not ok and `fetchTMDB` throws -/
  details : Option Details
  /-- the `_id` given to the document built by `new Movie(...)` -/
  newId : Nat
  /-- how the store answers `movie.save()` once validation has passed -/
  save : SaveResult
  /-- how the store answers `user.save()` after the push -/
  userSave : SaveResult

/-- The document `new Movie(...)` of `/watchlist/add`, `description` at its
schema default.  The paths `releaseYear`, `genre` and `posterUrl` receive no
value. -/
def newMovie (id : Nat) (media_type : JsVal) (details : Details) (cast : List CastMember) :
    MovieDoc :=
  { _id := id
    tmdbId := keep "tmdbId" details.id
    media_type := keep "media_type" media_type
    title := keep "title" (jsOr details.title details.name)
    description := some (.str "")
    overview := keep "overview" details.overview
    poster_path := keep "poster_path" details.poster_path
    release_date := keep "release_date" (jsOr details.release_date details.first_air_date)
    vote_average := keep "vote_average" details.vote_average
    genres := keep "genres" details.genres
    cast := keep "credits" (cast.take 20) }

/-- The write `user.save()` after `user.watchlist.push(id)`. -/
def pushWatchlist (users : List User) (user : User) (id : Nat) : List User :=
  users.map (fun u =>
    if u._id = user._id then { u with watchlist := user.watchlist ++ [id] } else u)

/-- The update `User.findByIdAndUpdate(userId, { $pull: { watchlist: id } })`. -/
def pullWatchlist (users : List User) (userId id : Nat) : List User :=
  users.map (fun u =>
    if u._id = userId then { u with watchlist := u.watchlist.filter (fun x => x ≠ id) } else u)

/-- The 409 answer of `/watchlist/add`. -/
def alreadyInWatchlist : Reply :=
  json 409 [("message", .str "Item already in watchlist.")]

/-- The success answer of `/watchlist/add`. -/
def addedToWatchlist : Reply :=
  json 200 [("success", .bool true), ("message", .str "Added to watchlist.")]

/-- The success answer of `/watchlist/remove`. -/
def removedFromWatchlist : Reply :=
  json 200 [("success", .bool true), ("message", .str "Removed from watchlist.")]

/-- The answer of `/watchlist/check`. -/
def inWatchlist (b : Bool) : Reply :=
  json 200 [("inWatchlist", .bool b)]

/-- The end of `/watchlist/add`, once the movie is resolved: the membership
check, the push, `user.save()` and the answer. -/
def addResolved (w : World) (user : User) (movie : MovieDoc) (userSave : SaveResult) :
    World × Reply :=
  if movie._id ∈ user.watchlist then
    (w, alreadyInWatchlist)
  else
    match userSave with
    | .accepted => ({ w with users := pushWatchlist w.users user movie._id }, addedToWatchlist)
    | _ => (w, serverError)

/-- Handler `router.post('/watchlist/add', ...)`. -/
def watchlistAdd (operators : String → Option (Option JsVal → Bool)) (strictQuery : Bool)
    (w : World) (tmdbId media_type : JsVal) (env : AddEnv) : World × Reply :=
  match w.session with
  | none => (w, json 401 [("error", .str "You must be logged in to add to your watchlist.")])
  | some sessionUser =>
    match w.users.find? (fun u => u._id = sessionUser.id) with
    | none => (w, json 404 [("error", .str "User not found.")])
    | some user =>
      match findOne operators strictQuery w.movies tmdbId with
      | none => (w, serverError)
      | some (some movie) => addResolved w user movie env.userSave
      | some none =>
        let w1 := { w with tmdbRequests := w.tmdbRequests ++ [(media_type, tmdbId)] }
        match env.details with
        | none => (w1, serverError)
        | some details =>
          match details.credits with
          | none => (w1, serverError)
          | some cast =>
            let movie := newMovie env.newId media_type details cast
            if titleValid movie.title then
              match env.save with
              | .accepted =>
                addResolved { w1 with movies := w1.movies ++ [movie] } user movie env.userSave
              | _ => (w1, serverError)
            else (w1, serverError)

/-- Handler `router.post('/watchlist/remove', ...)`; `updateOk` says whether
the store carries out `findByIdAndUpdate`. -/
def watchlistRemove (operators : String → Option (Option JsVal → Bool)) (strictQuery : Bool)
    (w : World) (tmdbId : JsVal) (updateOk : Bool) : World × Reply :=
  match w.session with
  | none =>
    (w, json 401 [("error", .str "You must be logged in to remove from your watchlist.")])
  | some sessionUser =>
    match findOne operators strictQuery w.movies tmdbId with
    | none => (w, serverError)
    | some none => (w, json 404 [("error", .str "Item not found.")])
    | some (some movie) =>
      if updateOk then
        ({ w with users := pullWatchlist w.users sessionUser.id movie._id },
          removedFromWatchlist)
      else (w, serverError)

/-- Handler `router.get('/watchlist/check/:tmdbId', ...)`. -/
def watchlistCheck (operators : String → Option (Option JsVal → Bool)) (strictQuery : Bool)
    (w : World) (tmdbId : JsVal) : World × Reply :=
  match w.session with
  | none => (w, inWatchlist false)
  | some sessionUser =>
    match findOne operators strictQuery w.movies tmdbId with
    | none => (w, serverError)
    | some none => (w, inWatchlist false)
    | some (some movie) =>
      match w.users.find? (fun u => u._id = sessionUser.id) with
      | none => (w, json 404 [("error", .str "User not found.")])
      | some user => (w, inWatchlist (decide (movie._id ∈ user.watchlist)))

/-! ## Runs of requests -/

/-- The library behaviour the handlers are parameterised by. -/
structure Library where
  /-- the method `String.prototype.toUpperCase` -/
  upper : String → String
  /-- the function `bcrypt.compare` -/
  compare : String → String → Bool
  /-- what `User.findOne` makes of an email filter that is not a string -/
  query : JsVal → Option (String → Bool)
  /-- what the store makes of an object as `tmdbId` filter -/
  operators : String → Option (Option JsVal → Bool)
  /-- the Mongoose option `strictQuery` -/
  strictQuery : Bool

/-- A request of the client, with the answers of the outside world to it. -/
inductive Request where
  | register (username email : String) (password : JsVal) (env : RegisterEnv)
  | verify (token code : JsVal) (env : VerifyEnv)
  | login (email password : JsVal)
  | add (tmdbId media_type : JsVal) (env : AddEnv)
  | remove (tmdbId : JsVal) (updateOk : Bool)
  | check (tmdbId : JsVal)

/-- Route dispatch. -/
def handle (lib : Library) (w : World) : Request → World × Reply
  | .register username email password env => register lib.upper w username email password env
  | .verify token code env => verify lib.upper w token code env
  | .login email password => login lib.compare lib.query w email password
  | .add tmdbId media_type env =>
    watchlistAdd lib.operators lib.strictQuery w tmdbId media_type env
  | .remove tmdbId updateOk =>
    watchlistRemove lib.operators lib.strictQuery w tmdbId updateOk
  | .check tmdbId => watchlistCheck lib.operators lib.strictQuery w tmdbId

/-- The world after a run of requests. -/
def run (lib : Library) (w : World) : List Request → World
  | [] => w
  | r :: rest => run lib (handle lib w r).1 rest

/-- Whether a request is a registration that draws the given token. -/
def drawsToken (token : JsVal) : Request → Bool
  | .register _ _ _ env => decide (JsVal.str (toHex env.tokenBytes) = token)
  | _ => false

/-- Every staged code is its own upper-case form. -/
def codesUpper (upper : String → String) (m : TempStore) : Prop :=
  ∀ e ∈ m, e.2.verificationCode = upper e.2.verificationCode

/-! ## Concrete scenarios -/

/-- The staged registration of the scenario of the specification: code
`7F3A9B`, staged at time 1000. -/
def aliceStaged : TempUser :=
  ⟨"alice", "alice@x.com", "$2b$10$hash", "7F3A9B", 1000⟩

/-- A world with that registration staged under token `T1` and nothing else. -/
def stagedWorld : World :=
  ⟨[("T1", aliceStaged)], [], [], none, []⟩

/-- The user `alice`, already committed. -/
def alice : User :=
  ⟨7, "alice", "alice@x.com", "$2b$10$hash", true, .undefined, []⟩

/-- A world in which `alice` was committed through another token while the
registration under `T1` was still staged. -/
def duplicateWorld : World :=
  ⟨[("T1", aliceStaged)], [alice], [], none, []⟩

/-- The answers of the outside world to a `POST /verify` at time `now`. -/
def verifyEnvAt (now : Int) (save : SaveResult) : VerifyEnv :=
  ⟨now, 1, .undefined, save⟩

/-- The user `bob`, persisted but not verified. -/
def bob : User :=
  ⟨8, "bob", "bob@x.com", "hash:Secret1", false, .undefined, []⟩

/-- A stand-in for `bcrypt.compare`. -/
def plainCompare (password hash : String) : Bool :=
  hash = "hash:" ++ password

/-- A store that rejects every filter value that is not a string. -/
def noQuery : JsVal → Option (String → Bool) :=
  fun _ => none

/-- A store that rejects every object as `tmdbId` filter. -/
def noOperators : String → Option (Option JsVal → Bool) :=
  fun _ => none

/-- A world with `alice` and `bob` persisted and no session. -/
def anonymousWorld : World :=
  ⟨[], [alice, bob], [], none, []⟩

/-- The same world seen by a client logged in as `alice`. -/
def loggedInWorld : World :=
  ⟨[], [alice, bob], [], some (sessionOf alice), []⟩

/-- The provider answer for title 603. -/
def matrixDetails : Details :=
  { id := .num 603, title := .str "The Matrix", name := .undefined,
    overview := .str "A hacker learns the truth.", poster_path := .str "/matrix.jpg",
    release_date := .str "1999-03-30", first_air_date := .undefined,
    vote_average := .num 8, genres := [⟨.num 28, .str "Action"⟩],
    credits := some [⟨.str "Keanu Reeves", .str "Neo", .str "/keanu.jpg"⟩] }

/-- The answers of the outside world to an add of title 603: the provider
returns `matrixDetails`, the new document gets `_id` `id`, the store accepts
both saves. -/
def matrixEnv (id : Nat) : AddEnv :=
  ⟨some matrixDetails, id, .accepted, .accepted⟩

/-- A world with `alice` logged in, an empty watchlist and no cached movie. -/
def freshWorld : World :=
  ⟨[], [alice], [], some (sessionOf alice), []⟩

/-- The document `/watchlist/add` persists for title 603 under `_id` 100: the
schema keeps the title and the default description only. -/
def matrixDoc : MovieDoc :=
  { _id := 100, tmdbId := none, media_type := none, title := some (.str "The Matrix"),
    description := some (.str ""), overview := none, poster_path := none,
    release_date := none, vote_average := none, genres := none, cast := none }

/-- The world after `alice` added title 603 to her watchlist. -/
def listedWorld : World :=
  ⟨[], [{ alice with watchlist := [100] }], [matrixDoc], some (sessionOf alice),
    [(.str "movie", .num 603)]⟩

/-- The world after `alice` added title 603 and removed it again: the
document of title 603 is cached and her watchlist is empty. -/
def cachedWorld : World :=
  ⟨[], [alice], [matrixDoc], some (sessionOf alice), [(.str "movie", .num 603)]⟩

/-! ## Lemmas on strings and the temp store -/

theorem toUpper_toUpper (c : Char) : c.toUpper.toUpper = c.toUpper := by
  unfold Char.toUpper
  simp only
  split
  · rename_i h
    have hv : (c.toNat - 32).isValidChar := by
      left; omega
    have h1 : (Char.ofNat (c.toNat - 32)).toNat = c.toNat - 32 := by
      unfold Char.ofNat
      rw [dif_pos hv]
      rfl
    rw [if_neg]
    rw [h1]; omega
  · rfl

/-- ASCII upper-casing is idempotent. -/
theorem asciiUpper_idem (s : String) : asciiUpper (asciiUpper s) = asciiUpper s := by
  have h : Char.toUpper ∘ Char.toUpper = Char.toUpper := by
    funext c; exact toUpper_toUpper c
  simp [asciiUpper, h]

theorem find_filter_ne (m : TempStore) (t : String) :
    (m.filter (fun e => e.1 ≠ t)).find? (fun e => e.1 = t) = none := by
  rw [List.find?_eq_none]
  intro x hx
  simpa using (List.mem_filter.mp hx).2

theorem find_filter_none (m : TempStore) (t u : String)
    (h : m.find? (fun e => e.1 = t) = none) :
    (m.filter (fun e => e.1 ≠ u)).find? (fun e => e.1 = t) = none := by
  rw [List.find?_eq_none] at h ⊢
  intro x hx
  exact h x (List.mem_filter.mp hx).1

/-- After `removeTempUser` the token addresses nothing. -/
theorem getTempUser_removeTempUser (m : TempStore) (token : JsVal) :
    getTempUser (removeTempUser m token) token = none := by
  cases token <;> simp only [getTempUser, removeTempUser, find_filter_ne, Option.map_none']

/-- Removing any token keeps an absent token absent. -/
theorem getTempUser_removeTempUser_of_none (m : TempStore) (token other : JsVal)
    (h : getTempUser m token = none) : getTempUser (removeTempUser m other) token = none := by
  cases token with
  | str t =>
    cases other with
    | str u =>
      have h1 : m.find? (fun e => e.1 = t) = none := by
        simpa [getTempUser] using h
      simp only [getTempUser, removeTempUser, find_filter_none m t u h1, Option.map_none']
    | _ => exact h
  | _ => rfl

/-- A request for an absent token changes nothing and gets the expired
render. -/
theorem verify_unknown (upper : String → String) (w : World) (token code : JsVal)
    (env : VerifyEnv) (h : getTempUser w.tempUsers token = none) :
    verify upper w token code env = (w, expiredReply) := by
  simp [verify, h]

theorem verify_tempUsers (upper : String → String) (w : World) (token code : JsVal)
    (env : VerifyEnv) :
    (verify upper w token code env).1.tempUsers = w.tempUsers ∨
    (verify upper w token code env).1.tempUsers = removeTempUser w.tempUsers token := by
  unfold verify
  split
  · exact Or.inl rfl
  · split
    · exact Or.inr rfl
    · split
      · split
        · exact Or.inl rfl
        · split
          · exact Or.inr rfl
          · exact Or.inl rfl
      · exact Or.inl rfl

/-- No `POST /verify` stages a registration: an absent token stays absent. -/
theorem verify_keeps_absent (upper : String → String) (w : World) (token t c : JsVal)
    (env : VerifyEnv) (h : getTempUser w.tempUsers token = none) :
    getTempUser (verify upper w t c env).1.tempUsers token = none := by
  rcases verify_tempUsers upper w t c env with e | e
  · rw [e]; exact h
  · rw [e]; exact getTempUser_removeTempUser_of_none _ _ _ h

theorem getTempUser_storeTempUser_of_none (m : TempStore) (token : JsVal) (t : String)
    (d : TempData) (now : Int) (hne : JsVal.str t ≠ token)
    (h : getTempUser m token = none) : getTempUser (storeTempUser m t d now) token = none := by
  cases token with
  | str u =>
    have hu : ¬ t = u := fun e => hne (by rw [e])
    have h1 : m.find? (fun e => e.1 = u) = none := by
      simpa [getTempUser] using h
    simp only [getTempUser, storeTempUser, List.find?_cons, hu, decide_False,
      find_filter_none m u t h1, Option.map_none']
  | _ => rfl

theorem register_tempUsers (upper : String → String) (w : World) (username email : String)
    (password : JsVal) (env : RegisterEnv) :
    (register upper w username email password env).1.tempUsers = w.tempUsers ∨
    (register upper w username email password env).1.tempUsers
      = storeTempUser w.tempUsers (toHex env.tokenBytes)
          ⟨username, email, env.hashed, upper (toHex env.codeBytes)⟩ env.now := by
  unfold register
  split
  · exact Or.inl rfl
  · split
    · exact Or.inl rfl
    · split
      · split <;> exact Or.inr rfl
      · exact Or.inl rfl

theorem login_tempUsers (compare : String → String → Bool)
    (query : JsVal → Option (String → Bool)) (w : World) (email password : JsVal) :
    (login compare query w email password).1.tempUsers = w.tempUsers := by
  unfold login
  repeat' split
  all_goals rfl

theorem addResolved_tempUsers (w : World) (user : User) (movie : MovieDoc) (s : SaveResult) :
    (addResolved w user movie s).1.tempUsers = w.tempUsers := by
  unfold addResolved
  repeat' split
  all_goals rfl

theorem watchlistAdd_tempUsers (ops : String → Option (Option JsVal → Bool)) (sq : Bool)
    (w : World) (tmdbId mt : JsVal) (env : AddEnv) :
    (watchlistAdd ops sq w tmdbId mt env).1.tempUsers = w.tempUsers := by
  unfold watchlistAdd
  repeat' split
  all_goals first
    | rfl
    | exact addResolved_tempUsers _ _ _ _
    | (simp only []; split <;> first | rfl | exact addResolved_tempUsers _ _ _ _)

theorem watchlistRemove_tempUsers (ops : String → Option (Option JsVal → Bool)) (sq : Bool)
    (w : World) (tmdbId : JsVal) (updateOk : Bool) :
    (watchlistRemove ops sq w tmdbId updateOk).1.tempUsers = w.tempUsers := by
  unfold watchlistRemove
  repeat' split
  all_goals rfl

theorem watchlistCheck_tempUsers (ops : String → Option (Option JsVal → Bool)) (sq : Bool)
    (w : World) (tmdbId : JsVal) :
    (watchlistCheck ops sq w tmdbId).1.tempUsers = w.tempUsers := by
  unfold watchlistCheck
  repeat' split
  all_goals rfl

/-- A request that does not draw the token keeps an absent token absent. -/
theorem handle_keeps_absent (lib : Library) (w : World)
    (r : Request) (token : JsVal) (hr : drawsToken token r = false)
    (h : getTempUser w.tempUsers token = none) :
    getTempUser (handle lib w r).1.tempUsers token = none := by
  cases r with
  | register username email password env =>
    have hne : JsVal.str (toHex env.tokenBytes) ≠ token := by
      simpa [drawsToken] using hr
    rcases register_tempUsers lib.upper w username email password env with e | e
    · simp only [handle, e, h]
    · simp only [handle, e]
      exact getTempUser_storeTempUser_of_none _ _ _ _ _ hne h
  | verify t c env => exact verify_keeps_absent lib.upper w token t c env h
  | login email password => simp only [handle, login_tempUsers, h]
  | add tmdbId mt env => simp only [handle, watchlistAdd_tempUsers, h]
  | remove tmdbId updateOk => simp only [handle, watchlistRemove_tempUsers, h]
  | check tmdbId => simp only [handle, watchlistCheck_tempUsers, h]

theorem run_keeps_absent (lib : Library) (reqs : List Request) (w : World) (token : JsVal)
    (hr : ∀ r ∈ reqs, drawsToken token r = false)
    (h : getTempUser w.tempUsers token = none) :
    getTempUser (run lib w reqs).tempUsers token = none := by
  induction reqs generalizing w with
  | nil => exact h
  | cons r rest ih =>
    exact ih _ (fun x hx => hr x (List.mem_cons_of_mem _ hx))
      (handle_keeps_absent lib w r token (hr r (List.mem_cons_self _ _)) h)

theorem codesUpper_filter (upper : String → String) (m : TempStore)
    (p : String × TempUser → Bool) (h : codesUpper upper m) :
    codesUpper upper (m.filter p) :=
  fun e he => h e (List.mem_filter.mp he).1

/-- Every request keeps the staged codes in upper-case form, when upper-casing
a hex string twice is the same as upper-casing it once. -/
theorem handle_codesUpper (lib : Library)
    (hidem : ∀ bytes, lib.upper (lib.upper (toHex bytes)) = lib.upper (toHex bytes))
    (w : World) (r : Request) (h : codesUpper lib.upper w.tempUsers) :
    codesUpper lib.upper (handle lib w r).1.tempUsers := by
  cases r with
  | register username email password env =>
    rcases register_tempUsers lib.upper w username email password env with e | e
    · simp only [handle, e]; exact h
    · simp only [handle, e]
      intro x hx
      rcases List.mem_cons.mp hx with hx | hx
      · rw [hx]
        exact (hidem _).symm
      · exact codesUpper_filter _ _ _ h x hx
  | verify t c env =>
    rcases verify_tempUsers lib.upper w t c env with e | e
    · simp only [handle, e]; exact h
    · simp only [handle, e]
      cases t with
      | str u => exact codesUpper_filter _ _ _ h
      | _ => exact h
  | login email password => simp only [handle, login_tempUsers]; exact h
  | add tmdbId mt env => simp only [handle, watchlistAdd_tempUsers]; exact h
  | remove tmdbId updateOk => simp only [handle, watchlistRemove_tempUsers]; exact h
  | check tmdbId => simp only [handle, watchlistCheck_tempUsers]; exact h

/-- From an empty temp store, every run of requests leaves each staged code
in upper-case form: the form the commit step relies on. -/
theorem run_codesUpper (lib : Library)
    (hidem : ∀ bytes, lib.upper (lib.upper (toHex bytes)) = lib.upper (toHex bytes))
    (reqs : List Request) (w : World) (h : codesUpper lib.upper w.tempUsers) :
    codesUpper lib.upper (run lib w reqs).tempUsers := by
  induction reqs generalizing w with
  | nil => exact h
  | cons r rest ih => exact ih _ (handle_codesUpper lib hidem w r h)

/-- A staged registration read back from a store with upper-case codes has an
upper-case code. -/
theorem getTempUser_codesUpper (upper : String → String) (m : TempStore) (token : JsVal)
    (tu : TempUser) (h : codesUpper upper m) (hg : getTempUser m token = some tu) :
    tu.verificationCode = upper tu.verificationCode := by
  cases token with
  | str t =>
    simp only [getTempUser, Option.map_eq_some'] at hg
    obtain ⟨e, he, rfl⟩ := hg
    exact h e (List.mem_of_find?_eq_some he)
  | _ => simp [getTempUser] at hg

/-- The commit step: a staged token, a matching code, within the time limit,
and a store that accepts the new user. -/
theorem verify_commit (upper : String → String) (w : World) (token : JsVal) (c : String)
    (tu : TempUser) (env : VerifyEnv)
    (hstaged : getTempUser w.tempUsers token = some tu)
    (hupper : tu.verificationCode = upper tu.verificationCode)
    (hcode : upper c = upper tu.verificationCode)
    (httl : env.now - tu.timestamp ≤ 60000)
    (hsave : env.save = .accepted) :
    verify upper w token (.str c) env =
      ({ w with users := w.users ++ [newUser tu env],
                tempUsers := removeTempUser w.tempUsers token,
                session := some (sessionOf (newUser tu env)) },
        redirect "/") := by
  have hc : tu.verificationCode = upper c := by rw [hcode]; exact hupper
  simp [verify, hstaged, not_lt.mpr httl, hc, hsave]

/-- The rejected commit: the same request with a store that does not accept the
new user gets the 500 render and changes nothing. -/
theorem verify_rejected (upper : String → String) (w : World) (token : JsVal) (c : String)
    (tu : TempUser) (env : VerifyEnv)
    (hstaged : getTempUser w.tempUsers token = some tu)
    (hupper : tu.verificationCode = upper tu.verificationCode)
    (hcode : upper c = upper tu.verificationCode)
    (httl : env.now - tu.timestamp ≤ 60000)
    (hsave : env.save ≠ .accepted) :
    verify upper w token (.str c) env = (w, verificationErrorReply token) := by
  have hc : tu.verificationCode = upper c := by rw [hcode]; exact hupper
  cases hs : env.save with
  | accepted => exact absurd hs hsave
  | duplicateKey => simp [verify, hstaged, not_lt.mpr httl, hc, hs]
  | failed => simp [verify, hstaged, not_lt.mpr httl, hc, hs]

/-! ## `POST /verify` -/

/-- C1 (amended): for a token holding a staged registration whose code is in
the upper-case form `/register` stages, a supplied code equal to it ignoring
letter case (equal upper-case forms) and a request time at most 60000 ms after
staging (60000 included): when the store accepts `user.save()`, `POST /verify`
redirects to `/`, appends exactly one `User` with `isVerified = true`, removes
the token and sets the session to the id, username and profile picture of that
user, and every second `POST /verify` with the token then gets the
unknown-token answer and changes nothing, so no second `User` is created; when
the store does not accept `user.save()`, the request gets the 500 verification
render with the token kept in the form and the whole world (users, temp store,
session) is left as it was. -/
theorem verify_commits_once (upper : String → String) (w : World) (token : JsVal)
    (c : String) (tu : TempUser) (env : VerifyEnv)
    (hstaged : getTempUser w.tempUsers token = some tu)
    (hupper : tu.verificationCode = upper tu.verificationCode)
    (hcode : upper c = upper tu.verificationCode)
    (httl : env.now - tu.timestamp ≤ 60000) :
    (env.save = .accepted →
      (verify upper w token (.str c) env).2 = redirect "/" ∧
      (verify upper w token (.str c) env).1.users = w.users ++ [newUser tu env] ∧
      (newUser tu env).isVerified = true ∧
      getTempUser (verify upper w token (.str c) env).1.tempUsers token = none ∧
      (verify upper w token (.str c) env).1.session
        = some ⟨env.newId, tu.username, env.profilePicture⟩ ∧
      (verify upper w token (.str c) env).1.movies = w.movies ∧
      ∀ (c2 : JsVal) (env2 : VerifyEnv),
        verify upper (verify upper w token (.str c) env).1 token c2 env2
          = ((verify upper w token (.str c) env).1, expiredReply)) ∧
    (env.save ≠ .accepted →
      verify upper w token (.str c) env = (w, verificationErrorReply token)) := by
  refine ⟨?_, verify_rejected upper w token c tu env hstaged hupper hcode httl⟩
  intro hsave
  rw [verify_commit upper w token c tu env hstaged hupper hcode httl hsave]
  refine ⟨rfl, rfl, rfl, getTempUser_removeTempUser _ _, rfl, rfl, ?_⟩
  intro c2 env2
  exact verify_unknown _ _ _ _ _ (getTempUser_removeTempUser _ _)

/-- Witness of C1 at the boundary: the request arrives exactly 60000 ms after
staging, with the code in lower case; the store accepts in the first request
and answers with a duplicate key in the second. -/
theorem verify_commits_once_witness :
    (verify asciiUpper stagedWorld (.str "T1") (.str "7f3a9b")
        (verifyEnvAt 61000 .accepted)).2 = redirect "/" ∧
    (verify asciiUpper stagedWorld (.str "T1") (.str "7f3a9b")
        (verifyEnvAt 61000 .accepted)).1.users
      = [⟨1, "alice", "alice@x.com", "$2b$10$hash", true, .undefined, []⟩] ∧
    verify asciiUpper stagedWorld (.str "T1") (.str "7f3a9b")
        (verifyEnvAt 61000 .duplicateKey)
      = (stagedWorld, verificationErrorReply (.str "T1")) :=
  have h1 := (verify_commits_once asciiUpper stagedWorld (.str "T1") "7f3a9b" aliceStaged
    (verifyEnvAt 61000 .accepted) (by decide) (by decide) (by decide) (by decide)).1 rfl
  have h2 := (verify_commits_once asciiUpper stagedWorld (.str "T1") "7f3a9b" aliceStaged
    (verifyEnvAt 61000 .duplicateKey) (by decide) (by decide) (by decide) (by decide)).2
    (by decide)
  ⟨h1.1, h1.2.1, h2⟩

/-- Counterexample to C1 as stated: the token is staged, the code matches and
the request is within the time limit, but the store rejects `user.save()` (the
username and email were committed through another token meanwhile); the reply
is the 500 render, no `User` is added, the token stays staged and no session
is set. -/
theorem verify_commit_rejected :
    getTempUser duplicateWorld.tempUsers (.str "T1") = some aliceStaged ∧
    asciiUpper "7f3a9b" = asciiUpper aliceStaged.verificationCode ∧
    (11000 : Int) - aliceStaged.timestamp ≤ 60000 ∧
    verify asciiUpper duplicateWorld (.str "T1") (.str "7f3a9b")
        (verifyEnvAt 11000 .duplicateKey)
      = (duplicateWorld, verificationErrorReply (.str "T1")) ∧
    verificationErrorReply (.str "T1") ≠ redirect "/" := by
  decide

/-- C2: for a token holding a staged registration and any supplied code, a
`POST /verify` handled more than 60000 ms after staging gets the expired
render with the token cleared, leaves the users and the session as they were
and removes the token; after that, whatever requests are handled in between
(no registration drawing the same token again), every `POST /verify` with the
token, at any time and with any code, gets the unknown-token answer and
changes nothing. -/
theorem verify_expired_terminal (upper : String → String) (w : World) (token code : JsVal)
    (tu : TempUser) (env : VerifyEnv)
    (hstaged : getTempUser w.tempUsers token = some tu)
    (hexpired : env.now - tu.timestamp > 60000) :
    (verify upper w token code env).2 = expiredReply ∧
    (verify upper w token code env).1.users = w.users ∧
    (verify upper w token code env).1.session = w.session ∧
    getTempUser (verify upper w token code env).1.tempUsers token = none ∧
    ∀ (lib : Library) (between : List Request) (code2 : JsVal) (env2 : VerifyEnv),
      (∀ r ∈ between, drawsToken token r = false) →
      verify lib.upper (run lib (verify upper w token code env).1 between) token code2 env2
        = (run lib (verify upper w token code env).1 between, expiredReply) := by
  have hv : verify upper w token code env
      = ({ w with tempUsers := removeTempUser w.tempUsers token }, expiredReply) := by
    simp [verify, hstaged, hexpired]
  rw [hv]
  refine ⟨rfl, rfl, rfl, getTempUser_removeTempUser _ _, ?_⟩
  intro lib between code2 env2 hb
  exact verify_unknown _ _ _ _ _
    (run_keeps_absent lib between _ token hb (getTempUser_removeTempUser _ _))

/-- Witness of C2: the right code arrives 60001 ms after staging. -/
theorem verify_expired_terminal_witness :
    (verify asciiUpper stagedWorld (.str "T1") (.str "7F3A9B")
        (verifyEnvAt 61001 .accepted)).2 = expiredReply ∧
    (verify asciiUpper stagedWorld (.str "T1") (.str "7F3A9B")
        (verifyEnvAt 61001 .accepted)).1.users = [] :=
  have h := verify_expired_terminal asciiUpper stagedWorld (.str "T1") (.str "7F3A9B")
    aliceStaged (verifyEnvAt 61001 .accepted) (by decide) (by decide)
  ⟨h.1, h.2.1⟩

/-- C3 (amended): for a token holding a staged registration (its code in the
upper-case form `/register` stages) within its time limit and a supplied
string code whose upper-case form differs from that of the stored code,
`POST /verify` gets the invalid-code render with the token kept in the form
and leaves the whole world as it was (temp entry with its timestamp, users,
session); a later attempt with a matching code, still within 60000 ms of the
original staging time, commits when the store accepts `user.save()` and gets
the 500 render, changing nothing, when it does not. -/
theorem verify_wrong_code_retriable (upper : String → String) (w : World) (token : JsVal)
    (c : String) (tu : TempUser) (env : VerifyEnv)
    (hstaged : getTempUser w.tempUsers token = some tu)
    (hupper : tu.verificationCode = upper tu.verificationCode)
    (httl : env.now - tu.timestamp ≤ 60000)
    (hwrong : upper c ≠ upper tu.verificationCode) :
    verify upper w token (.str c) env = (w, invalidCodeReply token) ∧
    ∀ (c2 : String) (env2 : VerifyEnv),
      upper c2 = upper tu.verificationCode →
      env2.now - tu.timestamp ≤ 60000 →
      (env2.save = .accepted →
        verify upper (verify upper w token (.str c) env).1 token (.str c2) env2
          = ({ w with users := w.users ++ [newUser tu env2],
                      tempUsers := removeTempUser w.tempUsers token,
                      session := some (sessionOf (newUser tu env2)) },
              redirect "/")) ∧
      (env2.save ≠ .accepted →
        verify upper (verify upper w token (.str c) env).1 token (.str c2) env2
          = (w, verificationErrorReply token)) := by
  have hne : tu.verificationCode ≠ upper c := by
    intro h
    apply hwrong
    rw [← h, ← hupper]
  have hv : verify upper w token (.str c) env = (w, invalidCodeReply token) := by
    simp [verify, hstaged, not_lt.mpr httl, hne]
  rw [hv]
  refine ⟨rfl, ?_⟩
  intro c2 env2 hcode httl2
  exact ⟨verify_commit upper w token c2 tu env2 hstaged hupper hcode httl2,
    verify_rejected upper w token c2 tu env2 hstaged hupper hcode httl2⟩

/-- Witness of C3: a wrong code at 10 s leaves the world untouched. -/
theorem verify_wrong_code_retriable_witness :
    verify asciiUpper stagedWorld (.str "T1") (.str "000000") (verifyEnvAt 11000 .accepted)
      = (stagedWorld, invalidCodeReply (.str "T1")) :=
  (verify_wrong_code_retriable asciiUpper stagedWorld (.str "T1") "000000" aliceStaged
    (verifyEnvAt 11000 .accepted) (by decide) (by decide) (by decide) (by decide)).1

/-- Counterexample to C3 as stated: after a wrong code, the right code arrives
within the original time limit, but the store does not accept `user.save()`;
the second attempt gets the 500 render and commits nothing. -/
theorem verify_retry_rejected :
    verify asciiUpper stagedWorld (.str "T1") (.str "000000") (verifyEnvAt 11000 .accepted)
      = (stagedWorld, invalidCodeReply (.str "T1")) ∧
    asciiUpper "7F3A9B" = asciiUpper aliceStaged.verificationCode ∧
    (21000 : Int) - aliceStaged.timestamp ≤ 60000 ∧
    verify asciiUpper
        (verify asciiUpper stagedWorld (.str "T1") (.str "000000")
          (verifyEnvAt 11000 .accepted)).1
        (.str "T1") (.str "7F3A9B") (verifyEnvAt 21000 .failed)
      = (stagedWorld, verificationErrorReply (.str "T1")) ∧
    stagedWorld.users = [] ∧ stagedWorld.session = none := by
  decide

/-- C10 (as the code behaves): when the token addresses a staged registration
within its time limit and the `code` field is not a string, `code.toUpperCase()`
raises a `TypeError` outside the `try` block: the handler sends no response and
the exception leaves it; the world is unchanged. -/
theorem verify_throws_without_code (upper : String → String) (w : World)
    (token code : JsVal) (tu : TempUser) (env : VerifyEnv)
    (hstaged : getTempUser w.tempUsers token = some tu)
    (httl : env.now - tu.timestamp ≤ 60000)
    (hcode : ∀ s : String, code ≠ .str s) :
    verify upper w token code env = (w, .uncaught "TypeError") := by
  cases code with
  | str s => exact absurd rfl (hcode s)
  | _ => simp [verify, hstaged, not_lt.mpr httl]

/-- Witness of C10: the body carries the live token `T1` and no `code` field. -/
theorem verify_throws_without_code_witness :
    verify asciiUpper stagedWorld (.str "T1") .undefined (verifyEnvAt 11000 .accepted)
      = (stagedWorld, .uncaught "TypeError") :=
  verify_throws_without_code asciiUpper stagedWorld (.str "T1") .undefined aliceStaged
    (verifyEnvAt 11000 .accepted) (by decide) (by decide) (by intro s; exact JsVal.noConfusion)

/-! ## `POST /login` -/

theorem find_setVerified (b : Bool) (users : List User) (p : String → Bool) :
    (users.map (fun u => { u with isVerified := b })).find? (fun u => p u.email)
      = (users.find? (fun u => p u.email)).map (fun u => { u with isVerified := b }) := by
  rw [List.find?_map]
  rfl

theorem findUserByEmail_setVerified (query : JsVal → Option (String → Bool)) (b : Bool)
    (w : World) (email : JsVal) :
    findUserByEmail query (setVerified b w).users email
      = (findUserByEmail query w.users email).map
          (fun r => r.map (fun u => { u with isVerified := b })) := by
  cases email with
  | str e =>
    simp only [findUserByEmail, setVerified, Option.map_some']
    exact congrArg some (find_setVerified b w.users (fun x => decide (x = e)))
  | _ =>
    simp only [findUserByEmail, setVerified]
    cases query _ with
    | none => rfl
    | some p =>
      simp only [Option.map_some']
      exact congrArg some (find_setVerified b w.users p)

/-- C4 (amended): a client that already holds a session is redirected to `/`
by `redirectIfLoggedIn`, whatever the credentials.  For a client without a
session, `POST /login` answers with the unverified failure exactly when
`findOne` returns a user for the email, the password is a string that matches
its stored hash and `isVerified` is false; an unknown email and a wrong string
password both get the invalid-credentials failure, whatever the `isVerified`
flags are; a password that is not a string, for a known email, and an email
filter the store rejects get the 500 login error; and in every failure case
the world, the session included, is left as it was. -/
theorem login_unverified_iff (compare : String → String → Bool)
    (query : JsVal → Option (String → Bool)) (w : World) (email password : JsVal) :
    (∀ su : SessionUser, w.session = some su →
      login compare query w email password = (w, redirect "/")) ∧
    (w.session = none →
      ((login compare query w email password).2 = unverifiedReply ↔
        ∃ (u : User) (p : String),
          findUserByEmail query w.users email = some (some u) ∧
          password = .str p ∧ compare p u.password = true ∧ u.isVerified = false) ∧
      (findUserByEmail query w.users email = some none →
        ∀ b : Bool, login compare query (setVerified b w) email password
          = (setVerified b w, invalidCredentialsReply)) ∧
      (∀ (u : User) (p : String),
        findUserByEmail query w.users email = some (some u) →
        password = .str p → compare p u.password = false →
        ∀ b : Bool, login compare query (setVerified b w) email password
          = (setVerified b w, invalidCredentialsReply)) ∧
      (∀ u : User, findUserByEmail query w.users email = some (some u) →
        (∀ s : String, password ≠ .str s) →
        login compare query w email password = (w, loginErrorReply)) ∧
      (findUserByEmail query w.users email = none →
        login compare query w email password = (w, loginErrorReply)) ∧
      ((login compare query w email password).2 = unverifiedReply ∨
        (login compare query w email password).2 = invalidCredentialsReply ∨
        (login compare query w email password).2 = loginErrorReply →
        (login compare query w email password).1 = w)) := by
  refine ⟨?_, ?_⟩
  · intro su hs
    simp [login, hs]
  intro hguard
  have hg : ∀ b, (setVerified b w).session = none := fun b => hguard
  refine ⟨?_, ?_, ?_, ?_, ?_, ?_⟩
  · unfold login
    rw [hguard]
    cases hf : findUserByEmail query w.users email with
    | none => simp [loginErrorReply, unverifiedReply, render]
    | some r =>
      cases r with
      | none => simp [invalidCredentialsReply, unverifiedReply, render]
      | some u =>
        cases password with
        | str p =>
          by_cases hc : compare p u.password = true
          · cases hv : u.isVerified <;>
              simp [hc, hv, unverifiedReply, render, redirect]
          · simp [hc, invalidCredentialsReply, unverifiedReply, render]
        | _ => simp [loginErrorReply, unverifiedReply, render]
  · intro hf b
    unfold login
    rw [hg b, findUserByEmail_setVerified, hf]
    rfl
  · intro u p hf hp hc b
    unfold login
    rw [hg b, findUserByEmail_setVerified, hf, hp]
    simp [hc]
  · intro u hf hp
    unfold login
    rw [hguard, hf]
    cases password with
    | str s => exact absurd rfl (hp s)
    | _ => rfl
  · intro hf
    unfold login
    rw [hguard, hf]
  · unfold login
    rw [hguard]
    cases hf : findUserByEmail query w.users email with
    | none => simp
    | some r =>
      cases r with
      | none => simp
      | some u =>
        cases password with
        | str p =>
          by_cases hc : compare p u.password = true
          · cases hv : u.isVerified <;>
              simp [hc, hv, unverifiedReply, invalidCredentialsReply, loginErrorReply, render,
                redirect]
          · simp [hc]
        | _ => simp

/-- Witness of C4: `bob` is persisted and not verified; a client without a
session posts his email and password and gets the unverified failure; a client
logged in as `alice` posting the same gets the redirect. -/
theorem login_unverified_iff_witness :
    (login plainCompare noQuery anonymousWorld (.str "bob@x.com") (.str "Secret1")).2
      = unverifiedReply ∧
    login plainCompare noQuery loggedInWorld (.str "bob@x.com") (.str "Secret1")
      = (loggedInWorld, redirect "/") :=
  ⟨((login_unverified_iff plainCompare noQuery anonymousWorld (.str "bob@x.com")
      (.str "Secret1")).2 rfl).1.mpr ⟨bob, "Secret1", by decide, rfl, by decide, rfl⟩,
   (login_unverified_iff plainCompare noQuery loggedInWorld (.str "bob@x.com")
      (.str "Secret1")).1 (sessionOf alice) rfl⟩

/-- Counterexample to C4 as stated.  `bob` exists, the password matches and
`isVerified` is false, but the client already holds a session, so
`redirectIfLoggedIn` answers with a redirect to `/` and not with the
unverified failure.  And for the known email of `bob` a missing password does
not match the stored hash, yet the answer is the 500 login error and not the
invalid-credentials failure. -/
theorem login_guard_redirects :
    findUserByEmail noQuery loggedInWorld.users (.str "bob@x.com") = some (some bob) ∧
    plainCompare "Secret1" bob.password = true ∧
    bob.isVerified = false ∧
    login plainCompare noQuery loggedInWorld (.str "bob@x.com") (.str "Secret1")
      = (loggedInWorld, redirect "/") ∧
    redirect "/" ≠ unverifiedReply ∧
    login plainCompare noQuery anonymousWorld (.str "bob@x.com") .undefined
      = (anonymousWorld, loginErrorReply) ∧
    loginErrorReply ≠ invalidCredentialsReply := by
  decide

/-! ## Lemmas on the watchlist handlers -/

theorem find_map_id (f : User → User) (hf : ∀ u, (f u)._id = u._id) (users : List User)
    (id : Nat) :
    (users.map f).find? (fun u => u._id = id)
      = (users.find? (fun u => u._id = id)).map f := by
  rw [List.find?_map]
  have h : ((fun u : User => decide (u._id = id)) ∘ f) = (fun u : User => decide (u._id = id)) := by
    funext u
    simp [hf u]
  rw [h]

theorem find_pushWatchlist (users : List User) (user : User) (id mid : Nat)
    (hu : users.find? (fun u => u._id = id) = some user) :
    (pushWatchlist users user mid).find? (fun u => u._id = id)
      = some { user with watchlist := user.watchlist ++ [mid] } := by
  unfold pushWatchlist
  rw [find_map_id _ _ users id, hu]
  · simp
  · intro u
    split <;> rfl

theorem find_pullWatchlist (users : List User) (id mid : Nat) :
    (pullWatchlist users id mid).find? (fun u => u._id = id)
      = (users.find? (fun u => u._id = id)).map
          (fun u => { u with watchlist := u.watchlist.filter (fun x => x ≠ mid) }) := by
  unfold pullWatchlist
  rw [find_map_id _ _ users id]
  · cases hf : users.find? (fun u => u._id = id) with
    | none => rfl
    | some u =>
      have hid : u._id = id := by simpa using List.find?_some hf
      simp [hid]
  · intro u
    split <;> rfl

theorem filter_ne_append_self (l : List Nat) (m : Nat) (h : m ∉ l) :
    (l ++ [m]).filter (fun x => x ≠ m) = l := by
  have h1 : l.filter (fun x => x ≠ m) = l := by
    rw [List.filter_eq_self]
    intro a ha
    have : a ≠ m := fun e => h (e ▸ ha)
    simpa using this
  rw [List.filter_append, h1]
  simp

/-- Pulling the reference that a push appended gives the user document back. -/
theorem find_pull_push (users : List User) (user : User) (id mid : Nat)
    (hu : users.find? (fun u => u._id = id) = some user) (hn : mid ∉ user.watchlist) :
    (pullWatchlist (pushWatchlist users user mid) id mid).find? (fun u => u._id = id)
      = some user := by
  rw [find_pullWatchlist, find_pushWatchlist users user id mid hu]
  simp only [Option.map_some', filter_ne_append_self user.watchlist mid hn]

/-- When the end of `/watchlist/add` answers with success. -/
theorem addResolved_success (w : World) (user : User) (movie : MovieDoc) (s : SaveResult) :
    (addResolved w user movie s).2 = addedToWatchlist ↔
      movie._id ∉ user.watchlist ∧ s = .accepted := by
  unfold addResolved
  by_cases hin : movie._id ∈ user.watchlist
  · simp [hin, alreadyInWatchlist, addedToWatchlist, json]
  · cases s <;> simp [hin, serverError, addedToWatchlist, json]

theorem addResolved_accepted (w : World) (user : User) (movie : MovieDoc)
    (hn : movie._id ∉ user.watchlist) :
    addResolved w user movie .accepted
      = ({ w with users := pushWatchlist w.users user movie._id }, addedToWatchlist) := by
  simp [addResolved, hn]

/-- The add of a movie the lookup resolves. -/
theorem add_cached (ops : String → Option (Option JsVal → Bool)) (sq : Bool) (w : World)
    (tmdbId mt : JsVal) (env : AddEnv) (su : SessionUser) (user : User) (movie : MovieDoc)
    (hs : w.session = some su)
    (hu : w.users.find? (fun u => u._id = su.id) = some user)
    (hm : findOne ops sq w.movies tmdbId = some (some movie)) :
    watchlistAdd ops sq w tmdbId mt env = addResolved w user movie env.userSave := by
  simp [watchlistAdd, hs, hu, hm]

/-- The add of a movie the lookup misses, the provider knows and the store
accepts. -/
theorem add_created (ops : String → Option (Option JsVal → Bool)) (sq : Bool) (w : World)
    (tmdbId mt : JsVal) (env : AddEnv) (su : SessionUser) (user : User) (d : Details)
    (cast : List CastMember)
    (hs : w.session = some su)
    (hu : w.users.find? (fun u => u._id = su.id) = some user)
    (hm : findOne ops sq w.movies tmdbId = some none)
    (hd : env.details = some d) (hc : d.credits = some cast)
    (ht : titleValid (newMovie env.newId mt d cast).title = true)
    (hsave : env.save = .accepted) :
    watchlistAdd ops sq w tmdbId mt env
      = addResolved
          { w with movies := w.movies ++ [newMovie env.newId mt d cast],
                   tmdbRequests := w.tmdbRequests ++ [(mt, tmdbId)] }
          user (newMovie env.newId mt d cast) env.userSave := by
  simp [watchlistAdd, hs, hu, hm, hd, hc, ht, hsave]

/-- An add of a movie the watchlist references already. -/
theorem add_listed (ops : String → Option (Option JsVal → Bool)) (sq : Bool) (w : World)
    (tmdbId mt : JsVal) (env : AddEnv) (su : SessionUser) (user : User) (movie : MovieDoc)
    (hs : w.session = some su)
    (hu : w.users.find? (fun u => u._id = su.id) = some user)
    (hm : findOne ops sq w.movies tmdbId = some (some movie))
    (hin : movie._id ∈ user.watchlist) :
    watchlistAdd ops sq w tmdbId mt env = (w, alreadyInWatchlist) := by
  rw [add_cached ops sq w tmdbId mt env su user movie hs hu hm]
  simp [addResolved, hin]

/-- What a success answer of `/watchlist/add` says about the request and the
world after it. -/
theorem add_success (ops : String → Option (Option JsVal → Bool)) (sq : Bool) (w : World)
    (tmdbId mt : JsVal) (env : AddEnv)
    (h : (watchlistAdd ops sq w tmdbId mt env).2 = addedToWatchlist) :
    ∃ (su : SessionUser) (user : User) (movie : MovieDoc),
      w.session = some su ∧
      w.users.find? (fun u => u._id = su.id) = some user ∧
      movie._id ∉ user.watchlist ∧ env.userSave = .accepted ∧
      ((findOne ops sq w.movies tmdbId = some (some movie) ∧
          watchlistAdd ops sq w tmdbId mt env
            = ({ w with users := pushWatchlist w.users user movie._id }, addedToWatchlist)) ∨
        (findOne ops sq w.movies tmdbId = some none ∧
          (∃ (d : Details) (cast : List CastMember),
            env.details = some d ∧ d.credits = some cast ∧
            movie = newMovie env.newId mt d cast) ∧
          titleValid movie.title = true ∧ env.save = .accepted ∧
          watchlistAdd ops sq w tmdbId mt env
            = ({ w with users := pushWatchlist w.users user movie._id,
                        movies := w.movies ++ [movie],
                        tmdbRequests := w.tmdbRequests ++ [(mt, tmdbId)] },
                addedToWatchlist))) := by
  cases hs : w.session with
  | none => simp [watchlistAdd, hs, json, addedToWatchlist] at h
  | some su =>
    cases hu : w.users.find? (fun u => u._id = su.id) with
    | none => simp [watchlistAdd, hs, hu, json, addedToWatchlist] at h
    | some user =>
      cases hm : findOne ops sq w.movies tmdbId with
      | none => simp [watchlistAdd, hs, hu, hm, serverError, json, addedToWatchlist] at h
      | some r =>
        cases r with
        | some movie =>
          have e := add_cached ops sq w tmdbId mt env su user movie hs hu hm
          rw [e] at h
          obtain ⟨hn, hsv⟩ := (addResolved_success w user movie env.userSave).mp h
          refine ⟨su, user, movie, rfl, hu, hn, hsv, Or.inl ⟨rfl, ?_⟩⟩
          rw [e, hsv, addResolved_accepted w user movie hn, hs]
        | none =>
          cases hd : env.details with
          | none =>
            simp [watchlistAdd, hs, hu, hm, hd, serverError, json, addedToWatchlist] at h
          | some d =>
            cases hc : d.credits with
            | none =>
              simp [watchlistAdd, hs, hu, hm, hd, hc, serverError, json, addedToWatchlist] at h
            | some cast =>
              by_cases ht : titleValid (newMovie env.newId mt d cast).title = true
              · cases hsave : env.save with
                | accepted =>
                  have e := add_created ops sq w tmdbId mt env su user d cast hs hu hm hd hc ht
                    hsave
                  rw [e] at h
                  obtain ⟨hn, hsv⟩ := (addResolved_success _ user _ env.userSave).mp h
                  refine ⟨su, user, newMovie env.newId mt d cast, rfl, hu, hn, hsv,
                    Or.inr ⟨rfl, ⟨d, cast, rfl, hc, rfl⟩, ht, rfl, ?_⟩⟩
                  rw [e, hsv, addResolved_accepted _ user _ hn, hs]
                | duplicateKey =>
                  simp [watchlistAdd, hs, hu, hm, hd, hc, ht, hsave, serverError, json,
                    addedToWatchlist] at h
                | failed =>
                  simp [watchlistAdd, hs, hu, hm, hd, hc, ht, hsave, serverError, json,
                    addedToWatchlist] at h
              · simp [watchlistAdd, hs, hu, hm, hd, hc, ht, serverError, json,
                  addedToWatchlist] at h

/-- With `strictQuery` on, or when the lookup resolved a cached movie, the
lookup after a successful add resolves the movie whose reference the add
appended. -/
theorem findOne_after_add (ops : String → Option (Option JsVal → Bool)) (sq : Bool)
    (movies : List MovieDoc) (tmdbId : JsVal) (movie : MovieDoc)
    (hsq : sq = true) (hm : findOne ops sq movies tmdbId = some none) :
    findOne ops sq (movies ++ [movie]) tmdbId = some (some movie) := by
  subst hsq
  have hp : "tmdbId" ∉ movieSchemaPaths := by decide
  simp only [findOne, hp, not_false_eq_true, and_self, if_true, Option.some.injEq] at hm ⊢
  cases movies with
  | nil => rfl
  | cons m rest => simp at hm

/-- The world after a successful add: the session user, the reference `mid`
the add appended, and where the next lookup finds the movie again. -/
theorem add_effect (ops : String → Option (Option JsVal → Bool)) (sq : Bool) (w : World)
    (tmdbId mt : JsVal) (env : AddEnv)
    (h : (watchlistAdd ops sq w tmdbId mt env).2 = addedToWatchlist) :
    ∃ (su : SessionUser) (user : User) (mid : Nat),
      w.session = some su ∧
      w.users.find? (fun u => u._id = su.id) = some user ∧
      mid ∉ user.watchlist ∧
      (watchlistAdd ops sq w tmdbId mt env).1.session = some su ∧
      (watchlistAdd ops sq w tmdbId mt env).1.users = pushWatchlist w.users user mid ∧
      ((sq = true ∨ ∃ m, findOne ops sq w.movies tmdbId = some (some m)) →
        ∃ m, findOne ops sq (watchlistAdd ops sq w tmdbId mt env).1.movies tmdbId
              = some (some m) ∧ m._id = mid) := by
  obtain ⟨su, user, movie, hs, hu, hn, -, hcase⟩ := add_success ops sq w tmdbId mt env h
  refine ⟨su, user, movie._id, hs, hu, hn, ?_⟩
  rcases hcase with ⟨hm, e⟩ | ⟨hm, -, -, -, e⟩
  · rw [e]
    exact ⟨hs, rfl, fun _ => ⟨movie, hm, rfl⟩⟩
  · rw [e]
    refine ⟨hs, rfl, ?_⟩
    intro hor
    rcases hor with hsq | ⟨m, hm2⟩
    · exact ⟨movie, findOne_after_add ops sq w.movies tmdbId movie hsq hm, rfl⟩
    · rw [hm] at hm2
      cases hm2

/-! ## The watchlist handlers -/

/-- C5 (amended): the first of two consecutive `POST /api/watchlist/add` calls
with the same external id answers with success exactly when the user is logged
in and has a document, the movie resolves (the lookup finds it, or else the
provider answers with credits and a valid title and the store accepts
`movie.save()`), the watchlist does not reference it yet and the store accepts
`user.save()`.  The watchlist of the user is then exactly one element longer,
the reference of the movie appended.  Whenever the lookup of the second call
resolves that movie, the second call gets the 409 conflict and changes
nothing; that is so whenever the first call found the movie cached, and
whenever `strictQuery` is on. -/
theorem add_twice (ops : String → Option (Option JsVal → Bool)) (sq : Bool) (w : World)
    (tmdbId mt : JsVal) (env1 env2 : AddEnv) :
    ((watchlistAdd ops sq w tmdbId mt env1).2 = addedToWatchlist ↔
      ∃ (su : SessionUser) (user : User) (movie : MovieDoc),
        w.session = some su ∧
        w.users.find? (fun u => u._id = su.id) = some user ∧
        (findOne ops sq w.movies tmdbId = some (some movie) ∨
          (findOne ops sq w.movies tmdbId = some none ∧
            (∃ (d : Details) (cast : List CastMember),
              env1.details = some d ∧ d.credits = some cast ∧
              movie = newMovie env1.newId mt d cast) ∧
            titleValid movie.title = true ∧ env1.save = .accepted)) ∧
        movie._id ∉ user.watchlist ∧ env1.userSave = .accepted) ∧
    ((watchlistAdd ops sq w tmdbId mt env1).2 = addedToWatchlist →
      ∃ (su : SessionUser) (user : User) (mid : Nat),
        w.session = some su ∧
        w.users.find? (fun u => u._id = su.id) = some user ∧
        mid ∉ user.watchlist ∧
        (watchlistAdd ops sq w tmdbId mt env1).1.users.find? (fun u => u._id = su.id)
          = some { user with watchlist := user.watchlist ++ [mid] } ∧
        (user.watchlist ++ [mid]).length = user.watchlist.length + 1 ∧
        (∀ m : MovieDoc,
          findOne ops sq (watchlistAdd ops sq w tmdbId mt env1).1.movies tmdbId
            = some (some m) → m._id = mid →
          watchlistAdd ops sq (watchlistAdd ops sq w tmdbId mt env1).1 tmdbId mt env2
            = ((watchlistAdd ops sq w tmdbId mt env1).1, alreadyInWatchlist)) ∧
        ((sq = true ∨ ∃ m, findOne ops sq w.movies tmdbId = some (some m)) →
          watchlistAdd ops sq (watchlistAdd ops sq w tmdbId mt env1).1 tmdbId mt env2
            = ((watchlistAdd ops sq w tmdbId mt env1).1, alreadyInWatchlist))) := by
  have hB : (watchlistAdd ops sq w tmdbId mt env1).2 = addedToWatchlist →
      ∃ (su : SessionUser) (user : User) (mid : Nat),
        w.session = some su ∧
        w.users.find? (fun u => u._id = su.id) = some user ∧
        mid ∉ user.watchlist ∧
        (watchlistAdd ops sq w tmdbId mt env1).1.users.find? (fun u => u._id = su.id)
          = some { user with watchlist := user.watchlist ++ [mid] } ∧
        (user.watchlist ++ [mid]).length = user.watchlist.length + 1 ∧
        (∀ m : MovieDoc,
          findOne ops sq (watchlistAdd ops sq w tmdbId mt env1).1.movies tmdbId
            = some (some m) → m._id = mid →
          watchlistAdd ops sq (watchlistAdd ops sq w tmdbId mt env1).1 tmdbId mt env2
            = ((watchlistAdd ops sq w tmdbId mt env1).1, alreadyInWatchlist)) ∧
        ((sq = true ∨ ∃ m, findOne ops sq w.movies tmdbId = some (some m)) →
          watchlistAdd ops sq (watchlistAdd ops sq w tmdbId mt env1).1 tmdbId mt env2
            = ((watchlistAdd ops sq w tmdbId mt env1).1, alreadyInWatchlist)) := by
    intro h
    obtain ⟨su, user, mid, hs, hu, hn, hs1, hu1, hfind⟩ := add_effect ops sq w tmdbId mt env1 h
    have hu2 : (watchlistAdd ops sq w tmdbId mt env1).1.users.find? (fun u => u._id = su.id)
        = some { user with watchlist := user.watchlist ++ [mid] } := by
      rw [hu1]
      exact find_pushWatchlist w.users user su.id mid hu
    have hsecond : ∀ m : MovieDoc,
        findOne ops sq (watchlistAdd ops sq w tmdbId mt env1).1.movies tmdbId
          = some (some m) → m._id = mid →
        watchlistAdd ops sq (watchlistAdd ops sq w tmdbId mt env1).1 tmdbId mt env2
          = ((watchlistAdd ops sq w tmdbId mt env1).1, alreadyInWatchlist) := by
      intro m hm hmid
      exact add_listed ops sq _ tmdbId mt env2 su _ m hs1 hu2 hm (by simp [hmid])
    refine ⟨su, user, mid, hs, hu, hn, hu2, by simp, hsecond, ?_⟩
    intro hor
    obtain ⟨m, hm, hmid⟩ := hfind hor
    exact hsecond m hm hmid
  refine ⟨⟨?_, ?_⟩, hB⟩
  · intro h
    obtain ⟨su, user, movie, hs, hu, hn, hsv, hcase⟩ := add_success ops sq w tmdbId mt env1 h
    refine ⟨su, user, movie, hs, hu, ?_, hn, hsv⟩
    rcases hcase with ⟨hm, -⟩ | ⟨hm, hd, ht, hsave, -⟩
    · exact Or.inl hm
    · exact Or.inr ⟨hm, hd, ht, hsave⟩
  · rintro ⟨su, user, movie, hs, hu, hcase, hn, hsv⟩
    rcases hcase with hm | ⟨hm, ⟨d, cast, hd, hc, rfl⟩, ht, hsave⟩
    · rw [add_cached ops sq w tmdbId mt env1 su user movie hs hu hm]
      exact (addResolved_success w user movie env1.userSave).mpr ⟨hn, hsv⟩
    · rw [add_created ops sq w tmdbId mt env1 su user d cast hs hu hm hd hc ht hsave]
      exact (addResolved_success _ user _ env1.userSave).mpr ⟨hn, hsv⟩

/-- Witness of C5: `alice` adds the not yet cached title 603 twice with
`strictQuery` on, and the cached title twice in `cachedWorld` (reached by a
remove from `listedWorld`) with `strictQuery` off and the id left out of the
body; each time success, then the 409 conflict with nothing changed. -/
theorem add_twice_witness :
    watchlistRemove noOperators false listedWorld .undefined true
      = (cachedWorld, removedFromWatchlist) ∧
    watchlistAdd noOperators true freshWorld (.num 603) (.str "movie") (matrixEnv 100)
      = (listedWorld, addedToWatchlist) ∧
    watchlistAdd noOperators true listedWorld (.num 603) (.str "movie") (matrixEnv 101)
      = (listedWorld, alreadyInWatchlist) ∧
    (watchlistAdd noOperators false cachedWorld .undefined (.str "movie") (matrixEnv 101)).2
      = addedToWatchlist ∧
    watchlistAdd noOperators false
        (watchlistAdd noOperators false cachedWorld .undefined (.str "movie") (matrixEnv 101)).1
        .undefined (.str "movie") (matrixEnv 102)
      = ((watchlistAdd noOperators false cachedWorld .undefined (.str "movie")
            (matrixEnv 101)).1, alreadyInWatchlist) :=
  have e1 : watchlistAdd noOperators true freshWorld (.num 603) (.str "movie") (matrixEnv 100)
      = (listedWorld, addedToWatchlist) := by decide
  have h1 := (add_twice noOperators true freshWorld (.num 603) (.str "movie") (matrixEnv 100)
    (matrixEnv 101)).2 (by decide)
  have h2 := (add_twice noOperators false cachedWorld .undefined (.str "movie") (matrixEnv 101)
    (matrixEnv 102)).2 (by decide)
  ⟨by decide, e1,
   by
    obtain ⟨_, _, _, _, _, _, _, _, _, h⟩ := h1
    have h' := h (Or.inl rfl)
    rw [e1] at h'
    exact h',
   by decide,
   by
    obtain ⟨_, _, _, _, _, _, _, _, _, h⟩ := h2
    exact h (Or.inr ⟨matrixDoc, by decide⟩)⟩

/-- Counterexample to C5 as stated, `alice` logged in.  For an id the provider
does not know, the first call gets the 500 answer.  When the store does not
accept `user.save()`, the first call gets the 500 answer although the movie
resolves.  When the watchlist references the resolved movie already
(`strictQuery` on), the first call is itself the 409 conflict. -/
theorem add_twice_fails :
    (watchlistAdd noOperators true freshWorld (.num 999) (.str "movie")
        ⟨none, 100, .accepted, .accepted⟩).2 = serverError ∧
    (watchlistAdd noOperators false freshWorld (.num 999) (.str "movie")
        ⟨none, 100, .accepted, .accepted⟩).2 = serverError ∧
    (watchlistAdd noOperators true freshWorld (.num 603) (.str "movie")
        ⟨some matrixDetails, 100, .accepted, .failed⟩).2 = serverError ∧
    (watchlistAdd noOperators false freshWorld (.num 603) (.str "movie")
        ⟨some matrixDetails, 100, .accepted, .failed⟩).2 = serverError ∧
    (watchlistAdd noOperators true listedWorld (.num 603) (.str "movie") (matrixEnv 101)).2
      = alreadyInWatchlist ∧
    serverError ≠ addedToWatchlist ∧ alreadyInWatchlist ≠ addedToWatchlist := by
  decide

/-- C6 (as the code behaves): the document `/watchlist/add` builds carries no
`tmdbId`, so with `strictQuery` off persisting it changes the result of no
lookup by a number, a string or a boolean.  Two adds of title 603 by `alice`,
starting from an empty collection, both get success, ask the provider twice
and leave two movie documents and two watchlist entries.  With `strictQuery`
on, the lookup ignores the id: after the add of 603, an add of 604 resolves
the document of 603, gets the 409 conflict, and neither asks the provider nor
creates a document for 604. -/
theorem add_refetches (ops : String → Option (Option JsVal → Bool)) :
    (∀ (id : Nat) (mt x : JsVal) (d : Details) (cast : List CastMember) (movies : List MovieDoc),
      (newMovie id mt d cast).tmdbId = none ∧
      ((∃ q, x = .num q) ∨ (∃ s, x = .str s) ∨ (∃ b, x = .bool b) →
        findOne ops false (movies ++ [newMovie id mt d cast]) x = findOne ops false movies x)) ∧
    watchlistAdd ops false freshWorld (.num 603) (.str "movie") (matrixEnv 100)
      = (listedWorld, addedToWatchlist) ∧
    watchlistAdd ops false listedWorld (.num 603) (.str "movie") (matrixEnv 101)
      = ({ listedWorld with
            users := [{ alice with watchlist := [100, 101] }],
            movies := [matrixDoc, { matrixDoc with _id := 101 }],
            tmdbRequests := [(.str "movie", .num 603), (.str "movie", .num 603)] },
          addedToWatchlist) ∧
    watchlistAdd ops true freshWorld (.num 603) (.str "movie") (matrixEnv 100)
      = (listedWorld, addedToWatchlist) ∧
    watchlistAdd ops true listedWorld (.num 604) (.str "movie") (matrixEnv 101)
      = (listedWorld, alreadyInWatchlist) := by
  refine ⟨?_, rfl, rfl, rfl, rfl⟩
  intro id mt x d cast movies
  refine ⟨rfl, ?_⟩
  rintro (⟨q, rfl⟩ | ⟨s, rfl⟩ | ⟨b, rfl⟩) <;>
    simp [findOne, List.find?_append, newMovie, keep, movieSchemaPaths]

/-- C7 (amended): when the lookup misses, the provider answers with details
that carry credits, and the store does not accept `movie.save()` (a duplicate
key included), `POST /api/watchlist/add` answers with the 500 server error;
the request to the provider is the only trace, no movie is persisted and no
watchlist changes. -/
theorem add_save_rejected (ops : String → Option (Option JsVal → Bool)) (sq : Bool)
    (w : World) (tmdbId mt : JsVal) (env : AddEnv)
    (su : SessionUser) (user : User) (details : Details) (cast : List CastMember)
    (hs : w.session = some su)
    (hu : w.users.find? (fun u => u._id = su.id) = some user)
    (hm : findOne ops sq w.movies tmdbId = some none)
    (hd : env.details = some details)
    (hc : details.credits = some cast)
    (hsave : env.save ≠ .accepted) :
    watchlistAdd ops sq w tmdbId mt env
      = ({ w with tmdbRequests := w.tmdbRequests ++ [(mt, tmdbId)] }, serverError) := by
  unfold watchlistAdd
  simp only [hs, hu, hm, hd, hc]
  split
  · cases hsv : env.save with
    | accepted => exact absurd hsv hsave
    | duplicateKey => rfl
    | failed => rfl
  · rfl

/-- Witness of C7: the store answers the insert of title 603 with a duplicate
key. -/
theorem add_save_rejected_witness :
    watchlistAdd noOperators false freshWorld (.num 603) (.str "movie")
        ⟨some matrixDetails, 100, .duplicateKey, .accepted⟩
      = ({ freshWorld with tmdbRequests := [(.str "movie", .num 603)] }, serverError) :=
  add_save_rejected noOperators false freshWorld (.num 603) (.str "movie")
    ⟨some matrixDetails, 100, .duplicateKey, .accepted⟩ (sessionOf alice) alice matrixDetails
    [⟨.str "Keanu Reeves", .str "Neo", .str "/keanu.jpg"⟩] rfl (by decide) (by decide) rfl rfl
    (by decide)

/-- Counterexample to C7 as stated: the lookup misses, the store rejects the
new movie with a duplicate key, and the caller receives the 500 server error,
which is neither the success nor the 409 answer. -/
theorem add_duplicate_key_500 :
    findOne noOperators true freshWorld.movies (.num 603) = some none ∧
    (watchlistAdd noOperators true freshWorld (.num 603) (.str "movie")
        ⟨some matrixDetails, 100, .duplicateKey, .accepted⟩).2
      = json 500 [("error", .str "Server error.")] ∧
    json 500 [("error", .str "Server error.")] ≠ addedToWatchlist ∧
    json 500 [("error", .str "Server error.")] ≠ alreadyInWatchlist := by
  decide

/-- What `/watchlist/remove` and `/watchlist/check` do in a world where the
lookup resolves a movie and the session user has a document. -/
theorem remove_check_resolved (ops : String → Option (Option JsVal → Bool)) (sq : Bool)
    (v : World) (tmdbId : JsVal) (su : SessionUser) (m : MovieDoc) (user : User)
    (hs : v.session = some su)
    (hm : findOne ops sq v.movies tmdbId = some (some m))
    (hu : v.users.find? (fun u => u._id = su.id) = some user) :
    watchlistRemove ops sq v tmdbId true
      = ({ v with users := pullWatchlist v.users su.id m._id }, removedFromWatchlist) ∧
    (pullWatchlist v.users su.id m._id).find? (fun u => u._id = su.id)
      = some { user with watchlist := user.watchlist.filter (fun x => x ≠ m._id) } ∧
    watchlistRemove ops sq v tmdbId false = (v, serverError) ∧
    watchlistCheck ops sq v tmdbId = (v, inWatchlist (decide (m._id ∈ user.watchlist))) := by
  refine ⟨?_, ?_, ?_, ?_⟩
  · simp [watchlistRemove, hs, hm]
  · rw [find_pullWatchlist, hu]
    rfl
  · simp [watchlistRemove, hs, hm]
  · simp [watchlistCheck, hs, hm, hu]

/-- C8 (amended): after a successful `POST /api/watchlist/add`, whenever the
lookup of `POST /api/watchlist/remove` with the same external id resolves the
movie whose reference the add appended and the store carries out the update,
remove answers with success, the user document is again as before the add and
`GET /api/watchlist/check` returns `inWatchlist: false`; when the store fails
the update, remove answers with the 500 server error, changes nothing and
check returns `inWatchlist: true`.  The lookup resolves that movie whenever the
add found it cached and whenever `strictQuery` is on.  In every world where
the lookup resolves a movie for a logged-in user with a document, remove pulls
every occurrence of the reference of that movie from the watchlist of the
user, the other entries kept in order, and check reports whether the
reference occurs in the watchlist. -/
theorem add_remove_check (ops : String → Option (Option JsVal → Bool)) (sq : Bool)
    (w : World) (tmdbId mt : JsVal) (env : AddEnv)
    (hadd : (watchlistAdd ops sq w tmdbId mt env).2 = addedToWatchlist) :
    (∃ (su : SessionUser) (user : User) (mid : Nat),
      w.session = some su ∧
      w.users.find? (fun u => u._id = su.id) = some user ∧
      mid ∉ user.watchlist ∧
      (watchlistAdd ops sq w tmdbId mt env).1.users.find? (fun u => u._id = su.id)
        = some { user with watchlist := user.watchlist ++ [mid] } ∧
      (∀ m : MovieDoc,
        findOne ops sq (watchlistAdd ops sq w tmdbId mt env).1.movies tmdbId = some (some m) →
        m._id = mid →
        (watchlistRemove ops sq (watchlistAdd ops sq w tmdbId mt env).1 tmdbId true).2
          = removedFromWatchlist ∧
        (watchlistRemove ops sq (watchlistAdd ops sq w tmdbId mt env).1 tmdbId true).1.users.find?
          (fun u => u._id = su.id) = some user ∧
        (watchlistCheck ops sq
          (watchlistRemove ops sq (watchlistAdd ops sq w tmdbId mt env).1 tmdbId true).1
          tmdbId).2 = inWatchlist false ∧
        watchlistRemove ops sq (watchlistAdd ops sq w tmdbId mt env).1 tmdbId false
          = ((watchlistAdd ops sq w tmdbId mt env).1, serverError) ∧
        (watchlistCheck ops sq (watchlistAdd ops sq w tmdbId mt env).1 tmdbId).2
          = inWatchlist true) ∧
      ((sq = true ∨ ∃ m, findOne ops sq w.movies tmdbId = some (some m)) →
        ∃ m, findOne ops sq (watchlistAdd ops sq w tmdbId mt env).1.movies tmdbId
              = some (some m) ∧ m._id = mid)) ∧
    (∀ (v : World) (su : SessionUser) (m : MovieDoc) (user : User),
      v.session = some su → findOne ops sq v.movies tmdbId = some (some m) →
      v.users.find? (fun u => u._id = su.id) = some user →
      watchlistRemove ops sq v tmdbId true
        = ({ v with users := pullWatchlist v.users su.id m._id }, removedFromWatchlist) ∧
      (pullWatchlist v.users su.id m._id).find? (fun u => u._id = su.id)
        = some { user with watchlist := user.watchlist.filter (fun x => x ≠ m._id) } ∧
      watchlistRemove ops sq v tmdbId false = (v, serverError) ∧
      watchlistCheck ops sq v tmdbId = (v, inWatchlist (decide (m._id ∈ user.watchlist)))) := by
  refine ⟨?_, fun v su m user hs hm hu => remove_check_resolved ops sq v tmdbId su m user hs hm hu⟩
  obtain ⟨su, user, mid, hs, hu, hn, hs1, hu1, hfind⟩ := add_effect ops sq w tmdbId mt env hadd
  generalize (watchlistAdd ops sq w tmdbId mt env).1 = w1 at hs1 hu1 hfind
  have hu2 : w1.users.find? (fun u => u._id = su.id)
      = some { user with watchlist := user.watchlist ++ [mid] } := by
    rw [hu1]
    exact find_pushWatchlist w.users user su.id mid hu
  refine ⟨su, user, mid, hs, hu, hn, hu2, ?_, hfind⟩
  intro m hm hmid
  obtain ⟨hr, -, hf, hc⟩ := remove_check_resolved ops sq w1 tmdbId su m _ hs1 hm hu2
  have hback : (pullWatchlist w1.users su.id m._id).find? (fun u => u._id = su.id)
      = some user := by
    rw [hu1, hmid]
    exact find_pull_push w.users user su.id mid hu hn
  have hc2 := (remove_check_resolved ops sq
    { w1 with users := pullWatchlist w1.users su.id m._id } tmdbId su m user hs1 hm hback).2.2.2
  refine ⟨?_, ?_, ?_, hf, ?_⟩
  · rw [hr]
  · rw [hr]
    exact hback
  · rw [hr]
    show (watchlistCheck ops sq { w1 with users := pullWatchlist w1.users su.id m._id }
      tmdbId).2 = _
    rw [hc2, hmid]
    simp [hn]
  · rw [hc, hmid]
    simp

/-- Witness of C8: `alice` adds the not yet cached title 603 with
`strictQuery` on, the store carries out the update of remove, and check
reports false with the user document as before the add. -/
theorem add_remove_check_witness :
    (watchlistAdd noOperators true freshWorld (.num 603) (.str "movie") (matrixEnv 100)).2
      = addedToWatchlist ∧
    watchlistRemove noOperators true
        (watchlistAdd noOperators true freshWorld (.num 603) (.str "movie") (matrixEnv 100)).1
        (.num 603) true
      = ({ listedWorld with users := [alice] }, removedFromWatchlist) ∧
    watchlistCheck noOperators true { listedWorld with users := [alice] } (.num 603)
      = ({ listedWorld with users := [alice] }, inWatchlist false) :=
  have h := add_remove_check noOperators true freshWorld (.num 603) (.str "movie")
    (matrixEnv 100) (by decide)
  ⟨by decide,
   ((h.2 listedWorld (sessionOf alice) matrixDoc { alice with watchlist := [100] } rfl
      (by decide) (by decide)).1 : _),
   (h.2 { listedWorld with users := [alice] } (sessionOf alice) matrixDoc alice rfl
      (by decide) (by decide)).2.2.2⟩

/-- Counterexample to C8 as stated: `alice` adds title 603 with success, the
store fails the update of the remove, which answers with the 500 server error,
and the check returns `inWatchlist: true`. -/
theorem remove_fails_check_true :
    watchlistAdd noOperators true freshWorld (.num 603) (.str "movie") (matrixEnv 100)
      = (listedWorld, addedToWatchlist) ∧
    watchlistRemove noOperators true listedWorld (.num 603) false
      = (listedWorld, serverError) ∧
    watchlistCheck noOperators true listedWorld (.num 603)
      = (listedWorld, inWatchlist true) ∧
    inWatchlist true ≠ inWatchlist false := by
  decide

/-- C9 (as the code behaves): every answer of `POST /api/watchlist/add` with
status 409 has the body with the single field `message` set to
`Item already in watchlist.`; it has no `error` field. -/
theorem add_conflict_body (ops : String → Option (Option JsVal → Bool)) (sq : Bool)
    (w : World) (tmdbId mt : JsVal) (env : AddEnv) (r : Response)
    (hr : (watchlistAdd ops sq w tmdbId mt env).2 = .sent r)
    (h409 : r.status = 409) :
    r.body = .json [("message", .str "Item already in watchlist.")] ∧
    r.body ≠ .json [("error", .str "Item already in watchlist.")] := by
  have hno : ∀ (n : Nat) (b : Body), n ≠ 409 → Reply.sent ⟨n, b⟩ = .sent r → False := by
    intro n b hn h
    simp only [Reply.sent.injEq] at h
    rw [← h] at h409
    exact hn h409
  have h500 : serverError = .sent r → False := hno 500 _ (by decide)
  have hres : ∀ (v : World) (user : User) (movie : MovieDoc) (s : SaveResult),
      (addResolved v user movie s).2 = .sent r →
      r.body = .json [("message", .str "Item already in watchlist.")] := by
    intro v user movie s h
    unfold addResolved at h
    split at h
    · simp only [alreadyInWatchlist, json, Reply.sent.injEq] at h
      rw [← h]
    · split at h
      · exact (hno 200 _ (by decide) h).elim
      · exact (h500 h).elim
  have hb : r.body = .json [("message", .str "Item already in watchlist.")] := by
    unfold watchlistAdd at hr
    split at hr
    · exact (hno 401 _ (by decide) hr).elim
    · split at hr
      · exact (hno 404 _ (by decide) hr).elim
      · split at hr
        · exact (h500 hr).elim
        · exact hres _ _ _ _ hr
        · split at hr
          · exact (h500 hr).elim
          · split at hr
            · exact (h500 hr).elim
            · simp only at hr
              split at hr
              · split at hr
                · exact hres _ _ _ _ hr
                · exact (h500 hr).elim
              · exact (h500 hr).elim
  refine ⟨hb, ?_⟩
  rw [hb]
  decide

/-- Witness of C9: `alice` adds title 603 again, `strictQuery` on. -/
theorem add_conflict_body_witness :
    (watchlistAdd noOperators true listedWorld (.num 603) (.str "movie") (matrixEnv 101)).2
      = .sent ⟨409, .json [("message", .str "Item already in watchlist.")]⟩ ∧
    (⟨409, .json [("message", .str "Item already in watchlist.")]⟩ : Response).body
      ≠ .json [("error", .str "Item already in watchlist.")] :=
  ⟨by decide,
   (add_conflict_body noOperators true listedWorld (.num 603) (.str "movie") (matrixEnv 101)
    ⟨409, .json [("message", .str "Item already in watchlist.")]⟩ (by decide) rfl).2⟩

end KurdForest
